import Mathlib

/-!
# Verification of the GT-Dash telemetry core

A shallow embedding of the telemetry ingestion and derivation pipeline of the
GT-Dash repository, together with theorems settling the specification claims.

Conventions of the embedding:
* JavaScript `Buffer`s are `List ℕ` of byte values; out-of-range reads yield 0
  (the source bounds-checks every read, so the default is never observable).
* JavaScript `number` values flowing through the lap/sector/track code are
  modelled as exact rationals `ℚ`; decimal literals such as `0.33` denote the
  exact rational they print as.
* IEEE-754 `readFloatLE` decoding is abstracted as a parameter
  `decodeFloat : ℕ → ℚ` taking the raw little-endian 32-bit word; the finiteness
  test used by the tire-temperature guard is computed from the raw exponent bits.
* `Math.sqrt` in the track-geometry code is abstracted as a parameter
  `sqrtQ : ℚ → ℚ`; theorems that depend on its behaviour take an order-reflecting
  hypothesis that the real square root satisfies.
* `undefined` / nullable fields are `Option`; JavaScript truthiness tests on
  optional numbers (`0` is falsy) are made explicit through `truthy`.
* Wall-clock calls (`Date.now()`) become explicit `now` arguments.
-/

namespace GTDash

/-- One byte of a buffer (source reads are bounds-checked before use). -/
def byteAt (data : List ℕ) (i : ℕ) : ℕ := (data.getD i 0) % 256

/-- `Buffer.readUInt32LE`. -/
def readUInt32LE (data : List ℕ) (off : ℕ) : ℕ :=
  byteAt data off + 256 * byteAt data (off + 1) +
    65536 * byteAt data (off + 2) + 16777216 * byteAt data (off + 3)

/-- `Buffer.readUInt16LE`. -/
def readUInt16LE (data : List ℕ) (off : ℕ) : ℕ :=
  byteAt data off + 256 * byteAt data (off + 1)

/-- Reinterpret a 32-bit word as a signed integer (two's complement). -/
def toInt32 (w : ℕ) : ℤ :=
  if w % 4294967296 < 2147483648 then (w % 4294967296 : ℤ)
  else (w % 4294967296 : ℤ) - 4294967296

/-- Reinterpret a 16-bit word as a signed integer (two's complement). -/
def toInt16 (w : ℕ) : ℤ :=
  if w % 65536 < 32768 then (w % 65536 : ℤ) else (w % 65536 : ℤ) - 65536

/-- `Buffer.readInt32LE`. -/
def readInt32LE (data : List ℕ) (off : ℕ) : ℤ := toInt32 (readUInt32LE data off)

/-- `Buffer.readInt16LE`. -/
def readInt16LE (data : List ℕ) (off : ℕ) : ℤ := toInt16 (readUInt16LE data off)

/-- `Buffer.readUInt8`. -/
def readUInt8 (data : List ℕ) (off : ℕ) : ℕ := byteAt data off

/-- Serialize a 32-bit word to four little-endian bytes (`writeUInt32LE`). -/
def toLEBytes4 (w : ℕ) : List ℕ :=
  [w % 256, w / 256 % 256, w / 65536 % 256, w / 16777216 % 256]

/-- JavaScript `>>> 0`: keep the low 32 bits. -/
def w32 (n : ℕ) : ℕ := n % 4294967296

/-! ## Cipher Engine (`src/main/udp/telemetry.ts`, Salsa20 section) -/

/-- `rotl`: rotate a 32-bit word left by `n`. -/
def rotl (v n : ℕ) : ℕ := ((v <<< n) % 4294967296) ||| ((v % 4294967296) >>> (32 - n))

/-- `quarterRound`: the Salsa20 core mixing function, acting on the indices
`a b c d` of the 16-word state (modelled as a `List ℕ` of length 16). -/
def quarterRound (y : List ℕ) (a b c d : ℕ) : List ℕ :=
  let y := y.set b (w32 ((y.getD b 0) ^^^ rotl (w32 (y.getD a 0 + y.getD d 0)) 7))
  let y := y.set c (w32 ((y.getD c 0) ^^^ rotl (w32 (y.getD b 0 + y.getD a 0)) 9))
  let y := y.set d (w32 ((y.getD d 0) ^^^ rotl (w32 (y.getD c 0 + y.getD b 0)) 13))
  let y := y.set a (w32 ((y.getD a 0) ^^^ rotl (w32 (y.getD d 0 + y.getD c 0)) 18))
  y

/-- One double round: four column quarter-rounds then four row quarter-rounds. -/
def doubleRound (y : List ℕ) : List ℕ :=
  let y := quarterRound y 0 4 8 12
  let y := quarterRound y 5 9 13 1
  let y := quarterRound y 10 14 2 6
  let y := quarterRound y 15 3 7 11
  let y := quarterRound y 0 1 2 3
  let y := quarterRound y 5 6 7 4
  let y := quarterRound y 10 11 8 9
  let y := quarterRound y 15 12 13 14
  y

/-- `salsa20Block`: one 64-byte keystream block from key, nonce and counter,
using the diagonal state layout of the source. -/
def salsa20Block (key nonce : List ℕ) (counter : ℕ) : List ℕ :=
  let k := fun i => readUInt32LE key (i * 4)
  let n0 := readUInt32LE nonce 0
  let n1 := readUInt32LE nonce 4
  let ctr0 := counter % 4294967296
  let ctr1 := counter / 4294967296 % 4294967296
  let state : List ℕ :=
    [0x61707865, k 0, k 1, k 2,
     k 3, 0x3320646e, n0, n1,
     ctr0, ctr1, 0x79622d32, k 4,
     k 5, k 6, k 7, 0x6b206574]
  let working := doubleRound^[10] state
  let mixed := List.zipWith (fun a b => w32 (a + b)) working state
  (mixed.map toLEBytes4).flatten

/-- Byte-wise XOR (zip truncates to the shorter list, matching the source's
`Math.min(64, data.length - offset)` truncation of the final block). -/
def xorBytes (a b : List ℕ) : List ℕ := List.zipWith (fun x y => x ^^^ y) a b

/-- `salsa20Crypt`: XOR the data with the keystream, 64 bytes per block.  The
source iterates `offset = 0, 64, 128, …` incrementing the block counter; here
block `i` covers bytes `64*i .. 64*i+63` (`take 64` truncates the final
partial block exactly like the source's `Math.min(64, remaining)`). -/
def salsa20Crypt (data key nonce : List ℕ) : List ℕ :=
  ((List.range ((data.length + 63) / 64)).map (fun i =>
    xorBytes ((data.drop (64 * i)).take 64) (salsa20Block key nonce i))).flatten

/-- `GT7_MAGIC` from `shared/constants.ts` (`"G7S0"` little-endian). -/
def GT7_MAGIC : ℕ := 0x47375330

/-- `SALSA20_KEY` from `shared/constants.ts`: the ASCII bytes of
`Simulator Interface Packet GT7 ver 0.0` (38 bytes). -/
def SALSA20_KEY : List ℕ :=
  [83, 105, 109, 117, 108, 97, 116, 111, 114, 32, 73, 110, 116, 101, 114, 102,
   97, 99, 101, 32, 80, 97, 99, 107, 101, 116, 32, 71, 84, 55, 32, 118,
   101, 114, 32, 48, 46, 48]

/-- The nonce assembly inside `decrypt`: read `iv1` at offset 0x40, XOR with
`0xDEADBEAF` to get `iv2`, and lay out `iv2` then `iv1` little-endian. -/
def deriveNonce (data : List ℕ) : List ℕ :=
  let iv1 := readUInt32LE data 0x40
  let iv2 := w32 (iv1 ^^^ 0xDEADBEAF)
  toLEBytes4 iv2 ++ toLEBytes4 iv1

/-- The Salsa20 pass performed by `decrypt` (key truncated to 32 bytes by
`SALSA20_KEY.slice(0, 32)`). -/
def decryptTransform (data : List ℕ) : List ℕ :=
  salsa20Crypt data (SALSA20_KEY.take 32) (deriveNonce data)

/-- `decrypt` from `telemetry.ts`: length guard, Salsa20 pass, magic check.
The source's `try`/`catch` around `salsa20Crypt` is unreachable because the key
constant is 38 ≥ 32 bytes long and the stream routine itself never throws, so
the embedding has exactly the two `null` paths of the source. -/
def decrypt (data : List ℕ) : Option (List ℕ) :=
  if data.length < 0x44 then none
  else
    let decrypted := decryptTransform data
    if readUInt32LE decrypted 0 = GT7_MAGIC then some decrypted else none

/-! ## Packet Decoder (`udp/parser.ts`) -/

/-- `MIN_PACKET_LEN` from `parser.ts`. -/
def MIN_PACKET_LEN : ℕ := 296

/-- The wire-format variant tags of `guessVariant`; the source writes the
extended variant as the character tilde. -/
inductive PacketVariant
  | A
  | B
  | extended
  | unknown
deriving DecidableEq, Repr

/-- `guessVariant`: classification of the wire-format variant by length. -/
def guessVariant (len : ℕ) : PacketVariant :=
  if len ≥ 344 then .extended
  else if len ≥ 316 then .B
  else if len ≥ 296 then .A
  else .unknown

/-- `has`: the per-field bounds check of the parser. -/
def hasBytes (data : List ℕ) (off bytes : ℕ) : Bool := data.length ≥ off + bytes

/-- Whether a raw IEEE-754 binary32 word is finite (exponent field ≠ 255);
`!isNaN(x) && isFinite(x)` on the decoded float is exactly this test on the
raw word. -/
def f32IsFinite (w : ℕ) : Bool := (w % 4294967296) / 8388608 % 256 ≠ 255

/-- A 3-component position vector. -/
structure Vec3 where
  x : ℚ
  y : ℚ
  z : ℚ
deriving DecidableEq, Repr

/-- The `ParsedTelemetry` record produced by `parsePacket` (the
`TelemetryPacket` fields plus the decode metadata). -/
structure ParsedTelemetry where
  position : Vec3
  speedKmh : ℚ
  rpm : ℚ
  gear : ℕ
  throttle : ℚ
  brake : ℚ
  currentLap : ℤ
  lapDistance : ℚ
  lastLapTime : ℤ
  bestLapTime : ℤ
  carId : ℤ
  fuelCapacity : ℚ
  fuelLevel : ℚ
  tireTemperatures : Option (ℚ × ℚ × ℚ × ℚ)
  sessionType : String
  packetId : ℤ
  timestamp : ℚ
  packetByteLength : ℕ
  packetVariant : PacketVariant
  lapCountRaw : ℤ
deriving DecidableEq, Repr

/-- `parsePacket` from `parser.ts`.  `decodeFloat` abstracts the IEEE-754
binary32 decoding of `readFloatLE` (applied to the raw little-endian word) and
`now` stands for the `Date.now()` call producing the `timestamp` field. -/
def parsePacket (decodeFloat : ℕ → ℚ) (now : ℚ) (data : List ℕ) :
    Option ParsedTelemetry :=
  if data.length < MIN_PACKET_LEN then none
  else
    let packetVariant := guessVariant data.length
    let readF := fun off => decodeFloat (readUInt32LE data off)
    let position : Vec3 :=
      { x := if hasBytes data 0x04 4 then readF 0x04 else 0
        y := if hasBytes data 0x08 4 then readF 0x08 else 0
        z := if hasBytes data 0x0C 4 then readF 0x0C else 0 }
    let rpm := if hasBytes data 0x3C 4 then readF 0x3C else 0
    let fuelLevel := if hasBytes data 0x44 4 then readF 0x44 else 0
    let fuelCapacity := if hasBytes data 0x48 4 then readF 0x48 else 0
    let speedMs := if hasBytes data 0x4C 4 then readF 0x4C else 0
    let speedKmh := speedMs * 3.6
    let packetId := if hasBytes data 0x70 4 then readInt32LE data 0x70 else 0
    let lapCountRaw := if hasBytes data 0x74 2 then readInt16LE data 0x74 else 0
    let bestLapTime := if hasBytes data 0x78 4 then readInt32LE data 0x78 else 0
    let lastLapTime := if hasBytes data 0x7C 4 then readInt32LE data 0x7C else 0
    let gear :=
      if hasBytes data 0x90 1 then
        let gearsByte := readUInt8 data 0x90
        let current := gearsByte % 16   -- gearsByte & 0x0f
        if current = 15 then 0 else current
      else 0
    let throttle := if hasBytes data 0x91 1 then (readUInt8 data 0x91 : ℚ) / 255 else 0
    let brake := if hasBytes data 0x92 1 then (readUInt8 data 0x92 : ℚ) / 255 else 0
    let tireTemperatures : Option (ℚ × ℚ × ℚ × ℚ) :=
      if hasBytes data 0x60 16 then
        let wfl := readUInt32LE data 0x60
        let wfr := readUInt32LE data 0x64
        let wrl := readUInt32LE data 0x68
        let wrr := readUInt32LE data 0x6C
        let fl := decodeFloat wfl
        let fr := decodeFloat wfr
        let rl := decodeFloat wrl
        let rr := decodeFloat wrr
        -- the source first requires all four floats to be neither NaN nor
        -- infinite, then checks the -50..200 range
        if f32IsFinite wfl && f32IsFinite wfr && f32IsFinite wrl && f32IsFinite wrr &&
            decide (fl ≥ -50 ∧ fl ≤ 200 ∧ fr ≥ -50 ∧ fr ≤ 200 ∧
              rl ≥ -50 ∧ rl ≤ 200 ∧ rr ≥ -50 ∧ rr ≤ 200) then
          some (fl, fr, rl, rr)
        else none
      else none
    let flags := if hasBytes data 0x8E 2 then readUInt16LE data 0x8E else 0
    let sessionType := if flags % 2 = 1 then "race" else "time_trial"
    let currentLapAlt := if hasBytes data 0x120 2 then readInt16LE data 0x120 else 0
    let carId := if hasBytes data 0x124 4 then readInt32LE data 0x124 else 0
    let lapDistance := if hasBytes data 0x12C 4 then readF 0x12C else 0
    let currentLap := if currentLapAlt > 0 then currentLapAlt else max 0 lapCountRaw
    some {
      position := position
      speedKmh := speedKmh
      rpm := rpm
      gear := gear
      throttle := throttle
      brake := brake
      currentLap := currentLap
      lapDistance := lapDistance
      lastLapTime := if lastLapTime = -1 then 0 else lastLapTime
      bestLapTime := if bestLapTime = -1 then 0 else bestLapTime
      carId := carId
      fuelCapacity := fuelCapacity
      fuelLevel := fuelLevel
      tireTemperatures := tireTemperatures
      sessionType := sessionType
      packetId := packetId
      timestamp := now
      packetByteLength := data.length
      packetVariant := packetVariant
      lapCountRaw := lapCountRaw }

/-! ## Track Geometry Engine (`src/main/utils/trackCapture.ts`) -/

/-- `TrackPoint` from `shared/types.ts`; `speed` and `timestamp` are optional. -/
structure TrackPoint where
  x : ℚ
  z : ℚ
  d : ℚ
  speed : Option ℚ
  timestamp : Option ℚ
deriving DecidableEq, Repr

/-- `TrackMap` from `shared/types.ts`. -/
structure TrackMap where
  trackId : String
  lengthMeters : ℚ
  centerline : List TrackPoint
  sectorFractions : List ℚ
  capturedAt : String
deriving DecidableEq, Repr

/-- `CaptureSession` from `shared/types.ts`. -/
structure CaptureSession where
  trackId : String
  isActive : Bool
  points : List TrackPoint
  startTime : ℚ
deriving DecidableEq, Repr

/-- JavaScript truthiness of an optional number: `undefined` and `0` are falsy. -/
def truthy (o : Option ℚ) : Bool :=
  match o with
  | none => false
  | some q => decide (q ≠ 0)

/-- Squared Euclidean distance from the query position to a centerline point,
written with the operand order of `getDistanceAlongTrack`
(`dx = posX - point.x`). -/
def distSqTo (posX posZ : ℚ) (p : TrackPoint) : ℚ :=
  (posX - p.x) * (posX - p.x) + (posZ - p.z) * (posZ - p.z)

/-- Whether a candidate distance beats the running minimum; `none` models the
`Infinity` initialisation, which every finite distance beats. -/
def beatsMin (cand : ℚ) (best : Option ℚ) : Bool :=
  match best with
  | none => true
  | some m => decide (cand < m)

/-- The scan loop of `getDistanceAlongTrack`: carry the running minimum
squared distance and the fraction of the nearest point seen so far. -/
def scanNearest (posX posZ : ℚ) : List TrackPoint → Option ℚ → ℚ → ℚ
  | [], _, bestFrac => bestFrac
  | p :: rest, best, bestFrac =>
    let dSq := distSqTo posX posZ p
    if beatsMin dSq best then scanNearest posX posZ rest (some dSq) p.d
    else scanNearest posX posZ rest best bestFrac

/-- `getDistanceAlongTrack` over a centerline (the body shared by the
`trackCapture.ts` export and the private copy in `sectorTimes.ts`): nearest
centerline point by squared distance, `minDistSq` starting at `Infinity`,
`nearestFraction` starting at 0. -/
def getDistanceAlongTrack (centerline : List TrackPoint) (posX posZ : ℚ) : ℚ :=
  if centerline.length = 0 then 0
  else scanNearest posX posZ centerline none 0

/-- `getDistanceAlongTrack(trackMap, posX, posZ)` as exported by
`trackCapture.ts`. -/
def getDistanceAlongTrackMap (tm : TrackMap) (posX posZ : ℚ) : ℚ :=
  getDistanceAlongTrack tm.centerline posX posZ

/-- The scan loop of `distanceAlongTrack`: the source compares plain (square
rooted) distances and remembers the nearest point itself; `sqrtQ` abstracts
`Math.sqrt`.  The operand order follows the source (`dx = point.x - x`). -/
def scanNearestPoint (sqrtQ : ℚ → ℚ) (x z : ℚ) :
    List TrackPoint → Option ℚ → Option TrackPoint → Option TrackPoint
  | [], _, best => best
  | p :: rest, bestDist, best =>
    let dist := sqrtQ ((p.x - x) * (p.x - x) + (p.z - z) * (p.z - z))
    if beatsMin dist bestDist then scanNearestPoint sqrtQ x z rest (some dist) (some p)
    else scanNearestPoint sqrtQ x z rest bestDist best

/-- `distanceAlongTrack(x, z, trackMap)`: the distance-in-meters variant,
returning the nearest point's stored fraction times the map length. -/
def distanceAlongTrack (sqrtQ : ℚ → ℚ) (x z : ℚ) (tm : TrackMap) : ℚ :=
  if tm.centerline.length = 0 then 0
  else
    match scanNearestPoint sqrtQ x z tm.centerline none none with
    | none => 0
    | some p => p.d * tm.lengthMeters

/-- Length of one centerline segment, `Math.sqrt(dx*dx + dz*dz)` in the
source's orientation (`dx = point.x - prev.x`). -/
def segLength (sqrtQ : ℚ → ℚ) (prev p : TrackPoint) : ℚ :=
  sqrtQ ((p.x - prev.x) * (p.x - prev.x) + (p.z - prev.z) * (p.z - prev.z))

/-- The cumulative-distance loop of `processTrackCapture` after the first
point: each point is paired with the running arc length. -/
def cumulate (sqrtQ : ℚ → ℚ) (prev : TrackPoint) (acc : ℚ) :
    List TrackPoint → List (TrackPoint × ℚ)
  | [] => []
  | p :: rest =>
    let acc2 := acc + segLength sqrtQ prev p
    (p, acc2) :: cumulate sqrtQ p acc2 rest

/-- `pointsWithDistance`: the filtered points, each with its cumulative arc
length (0 for the first point). -/
def pointsWithDistance (sqrtQ : ℚ → ℚ) : List TrackPoint → List (TrackPoint × ℚ)
  | [] => []
  | p :: rest => (p, 0) :: cumulate sqrtQ p 0 rest

/-- The final value of `cumulativeDistance` (`trackLength` in the source):
the arc length of the last point, 0 for an empty list. -/
def totalLength (pwd : List (TrackPoint × ℚ)) : ℚ :=
  match pwd.getLast? with
  | none => 0
  | some pq => pq.2

/-- Rebuild a centerline point with its fraction normalised by the track
length (the record literal pushed by both branches of the source). -/
def normPoint (trackLength : ℚ) (pq : TrackPoint × ℚ) : TrackPoint :=
  { x := pq.1.x, z := pq.1.z, d := pq.2 / trackLength,
    speed := pq.1.speed, timestamp := pq.1.timestamp }

/-- The downsampling loop: retain a point when the cumulative arc length has
advanced at least 0.5 since the last retained point; `none` models the
`-Infinity` initialisation of `lastCumulativeD`, which every value passes. -/
def downsampleGo (trackLength : ℚ) :
    List (TrackPoint × ℚ) → Option ℚ → List TrackPoint
  | [], _ => []
  | pq :: rest, lastD =>
    if (match lastD with | none => true | some l => decide (pq.2 - l ≥ 0.5)) then
      normPoint trackLength pq :: downsampleGo trackLength rest (some pq.2)
    else downsampleGo trackLength rest lastD

/-- `processTrackCapture`: filter, arc-length parameterisation, downsampling
and the sparse fallback.  `captureSession` is the module-level mutable session
made explicit, `nowIso` stands for `new Date().toISOString()`. -/
def processTrackCapture (sqrtQ : ℚ → ℚ) (nowIso : String)
    (captureSession : Option CaptureSession) : Option TrackMap :=
  match captureSession with
  | none => none
  | some sess =>
    if sess.points.length = 0 then none
    else
      let filteredPoints := sess.points.filter (fun p => decide ((p.speed.getD 0) > 5))
      if filteredPoints.length = 0 then none
      else
        let pwd := pointsWithDistance sqrtQ filteredPoints
        let trackLength := totalLength pwd
        let downsampled := downsampleGo trackLength pwd none
        let centerline :=
          if downsampled.length > 10 then downsampled
          else pwd.map (normPoint trackLength)
        some { trackId := sess.trackId, lengthMeters := trackLength,
               centerline := centerline, sectorFractions := [],
               capturedAt := nowIso }

/-! ## Sector/Lap Tracker (`src/main/utils/sectorTimes.ts`) -/

/-- `SectorData`, the output record of `calculateSectorTimes`. -/
structure SectorData where
  sector1Time : Option ℚ
  sector2Time : Option ℚ
  sector3Time : Option ℚ
  currentSector : ℕ
  lapFraction : ℚ
  lapLengthMeters : Option ℚ
deriving DecidableEq, Repr

/-- `SectorState`, the per-vehicle mutable state. -/
structure SectorState where
  lastLapCountRaw : ℤ
  lapStartTs : ℚ
  lapLengthMeters : Option ℚ
  lastLastLapTimeMs : ℚ
  s1End : ℚ
  s2End : ℚ
  currentSector : ℕ
  s1Ts : Option ℚ
  s2Ts : Option ℚ
  s3Ts : Option ℚ
  sector1TimeMs : ℚ
  sector2TimeMs : ℚ
  sector3TimeMs : ℚ
  lastLapDistance : ℚ
deriving DecidableEq, Repr

/-- The input record of `calculateSectorTimes`; `now` makes the
`input.now ?? Date.now()` default explicit. -/
structure SectorInput where
  carId : ℤ
  lapCountRaw : ℤ
  lapDistance : ℚ
  lastLapTimeMs : ℚ
  positionX : Option ℚ
  positionZ : Option ℚ
  trackMap : Option TrackMap
  now : ℚ
deriving DecidableEq, Repr

/-- The per-car state map (`states` in the source), with the returned map of
`calculateSectorTimes` standing in for the in-place mutation. -/
abbrev SectorStates := ℤ → Option SectorState

/-- The state-map with no entries. -/
def emptyStates : SectorStates := fun _ => none

/-- `states.set(carId, st)` on the per-car map. -/
def statesSet (states : SectorStates) (carId : ℤ) (st : SectorState) : SectorStates :=
  fun k => if k = carId then some st else states k

/-- `clamp01`. -/
def clamp01 (x : ℚ) : ℚ := if x < 0 then 0 else if x > 1 then 1 else x

/-- The fresh state installed for a car on its first sample. -/
def initialState (input : SectorInput) : SectorState :=
  { lastLapCountRaw := input.lapCountRaw
    lapStartTs := input.now
    lapLengthMeters := none
    lastLastLapTimeMs := 0
    s1End := 0.33
    s2End := 0.66
    currentSector := 1
    s1Ts := none
    s2Ts := none
    s3Ts := none
    sector1TimeMs := 0
    sector2TimeMs := 0
    sector3TimeMs := 0
    lastLapDistance := input.lapDistance }

/-- The track-map block: adopt the map's length (when positive) and its first
two sector fractions (when at least two are present). -/
def applyTrackMap (st : SectorState) (tm : Option TrackMap) : SectorState :=
  match tm with
  | none => st
  | some m =>
    if m.lengthMeters > 0 then
      let st1 := { st with lapLengthMeters := some m.lengthMeters }
      if m.sectorFractions.length ≥ 2 then
        { st1 with s1End := m.sectorFractions.getD 0 0,
                   s2End := m.sectorFractions.getD 1 0 }
      else st1
    else st

/-- The lap-rollover block: on a counter change, learn the lap length when no
track map is configured, the last-lap time is positive and has changed, and
the observed distance is plausible; then reset the sector timing state. -/
def rolloverStep (st : SectorState) (input : SectorInput) (now : ℚ) : SectorState :=
  if input.lapCountRaw ≠ st.lastLapCountRaw then
    let st1 :=
      if input.trackMap.isNone ∧ input.lastLapTimeMs > 0 ∧
          input.lastLapTimeMs ≠ st.lastLastLapTimeMs then
        let st2 :=
          if input.lapDistance > 500 ∧ input.lapDistance < 50000 then
            { st with lapLengthMeters := some input.lapDistance }
          else st
        { st2 with lastLastLapTimeMs := input.lastLapTimeMs }
      else if input.trackMap.isSome then
        { st with lastLastLapTimeMs := input.lastLapTimeMs }
      else st
    { st1 with lastLapCountRaw := input.lapCountRaw
               lapStartTs := now
               currentSector := 1
               s1Ts := none
               s2Ts := none
               s3Ts := none
               sector1TimeMs := 0
               sector2TimeMs := 0
               sector3TimeMs := 0 }
  else st

/-- The jitter-guard block: a hard backwards jump of the lap distance restarts
the lap timing without touching the learned lap length or the lap counter. -/
def jitterStep (st : SectorState) (input : SectorInput) (now : ℚ) : SectorState :=
  if input.lapDistance + 50 < st.lastLapDistance then
    { st with lapStartTs := now
              currentSector := 1
              s1Ts := none
              s2Ts := none
              s3Ts := none
              sector1TimeMs := 0
              sector2TimeMs := 0
              sector3TimeMs := 0 }
  else st

/-- The lap-fraction computation: position lookup against the track map when a
map and both coordinates are present, else the distance ratio, else 0. -/
def computeLapFraction (st : SectorState) (input : SectorInput) : ℚ :=
  match input.trackMap, input.positionX, input.positionZ with
  | some tm, some px, some pz => getDistanceAlongTrack tm.centerline px pz
  | _, _, _ =>
    if truthy st.lapLengthMeters && decide (input.lapDistance > 0) then
      clamp01 (input.lapDistance / st.lapLengthMeters.getD 0)
    else 0

/-- `trackMap?.centerline && trackMap.centerline.length > 0`. -/
def centerlineNonempty (tm : Option TrackMap) : Bool :=
  match tm with
  | none => false
  | some m => decide (0 < m.centerline.length)

/-- The sector-transition block. -/
def transitionStep (st : SectorState) (tm : Option TrackMap)
    (lapFraction now : ℚ) : SectorState :=
  if truthy st.lapLengthMeters &&
      (decide (lapFraction > 0) || centerlineNonempty tm) then
    if st.currentSector = 1 ∧ lapFraction ≥ st.s1End then
      { st with sector1TimeMs := now - st.lapStartTs
                s1Ts := some now
                currentSector := 2 }
    else if st.currentSector = 2 ∧ lapFraction ≥ st.s2End then
      { st with sector2TimeMs := if truthy st.s1Ts then now - st.s1Ts.getD 0 else 0
                s2Ts := some now
                currentSector := 3 }
    else st
  else st

/-- The running time of the current sector. -/
def runningMs (st : SectorState) (now : ℚ) : ℚ :=
  if st.currentSector = 1 then now - st.lapStartTs
  else if st.currentSector = 2 then
    (if truthy st.s1Ts then now - st.s1Ts.getD 0 else 0)
  else if st.currentSector = 3 then
    (if truthy st.s2Ts then now - st.s2Ts.getD 0 else 0)
  else 0

/-- The state after the track-map, rollover, jitter and `lastLapDistance`
blocks: everything `calculateSectorTimes` does to `st` before computing the
lap fraction (the existing entry for the car, or a fresh one). -/
def preState (states : SectorStates) (input : SectorInput) : SectorState :=
  { jitterStep
      (rolloverStep
        (applyTrackMap ((states input.carId).getD (initialState input))
          input.trackMap)
        input input.now)
      input input.now with lastLapDistance := input.lapDistance }

/-- The final block of the update: while in Sector3 with its entry stamped,
keep the Sector-3 running time current. -/
def sector3Step (st : SectorState) (now : ℚ) : SectorState :=
  if st.currentSector = 3 && truthy st.s2Ts then
    { st with sector3TimeMs := runningMs st now }
  else st

/-- The `SectorData` record returned by the update (durations reported only
once positive). -/
def mkSectorData (st : SectorState) (lapFraction : ℚ) : SectorData :=
  { sector1Time := if st.sector1TimeMs > 0 then some st.sector1TimeMs else none
    sector2Time := if st.sector2TimeMs > 0 then some st.sector2TimeMs else none
    sector3Time := if st.sector3TimeMs > 0 then some st.sector3TimeMs else none
    currentSector := st.currentSector
    lapFraction := lapFraction
    lapLengthMeters := st.lapLengthMeters }

/-- `calculateSectorTimes`: the full per-sample update.  Returns the updated
state map (the source mutates `states` in place) together with the
`SectorData` result (`none` exactly on the `!carId` early return). -/
def calculateSectorTimes (states : SectorStates) (input : SectorInput) :
    SectorStates × Option SectorData :=
  if input.carId = 0 then (states, none)
  else
    let st4 := preState states input
    let lapFraction := computeLapFraction st4 input
    let st5 := transitionStep st4 input.trackMap lapFraction input.now
    let st6 := sector3Step st5 input.now
    (statesSet states input.carId st6, some (mkSectorData st6 lapFraction))

/-! ## Theorems for the specification claims -/

set_option maxRecDepth 65536

/-- Little-endian 32-bit reads always fit in 32 bits. -/
lemma readUInt32LE_lt (data : List ℕ) (off : ℕ) :
    readUInt32LE data off < 4294967296 := by
  have h0 : byteAt data off < 256 := Nat.mod_lt _ (by norm_num)
  have h1 : byteAt data (off + 1) < 256 := Nat.mod_lt _ (by norm_num)
  have h2 : byteAt data (off + 2) < 256 := Nat.mod_lt _ (by norm_num)
  have h3 : byteAt data (off + 3) < 256 := Nat.mod_lt _ (by norm_num)
  simp only [readUInt32LE]
  omega

/-- C2 (counterexample): a 295-byte buffer is rejected outright by
`parsePacket` — no best-effort decode is attempted, contradicting the claim
that short buffers are "classified unknown but parse still attempts a
best-effort decode". -/
theorem c2_counterexample :
    parsePacket (fun _ => 0) 0 (List.replicate 295 0) = none := by
  decide

/-- C2 (amended): `parse` classifies purely by total byte length — at least
344 bytes is the extended variant, at least 316 is variant B, at least 296 is
variant A — and a buffer shorter than 296 bytes makes `parse` fail (return
`none`) without attempting any decode. -/
theorem c2_variant_classification (decodeFloat : ℕ → ℚ) (now : ℚ) (data : List ℕ) :
    (344 ≤ data.length →
      (parsePacket decodeFloat now data).map ParsedTelemetry.packetVariant =
        some PacketVariant.extended) ∧
    (316 ≤ data.length → data.length < 344 →
      (parsePacket decodeFloat now data).map ParsedTelemetry.packetVariant =
        some PacketVariant.B) ∧
    (296 ≤ data.length → data.length < 316 →
      (parsePacket decodeFloat now data).map ParsedTelemetry.packetVariant =
        some PacketVariant.A) ∧
    (data.length < 296 → parsePacket decodeFloat now data = none) := by
  have key : (parsePacket decodeFloat now data).map ParsedTelemetry.packetVariant =
      if data.length < 296 then none else some (guessVariant data.length) := by
    by_cases hlen : data.length < 296 <;>
      simp [parsePacket, MIN_PACKET_LEN, hlen]
  refine ⟨fun h => ?_, fun h h2 => ?_, fun h h2 => ?_, fun h => ?_⟩
  · rw [key, if_neg (by omega)]
    simp only [guessVariant]
    rw [if_pos (by omega)]
  · rw [key, if_neg (by omega)]
    simp only [guessVariant]
    rw [if_neg (by omega), if_pos (by omega)]
  · rw [key, if_neg (by omega)]
    simp only [guessVariant]
    rw [if_neg (by omega), if_neg (by omega), if_pos (by omega)]
  · simp [parsePacket, MIN_PACKET_LEN, h]

/-- C2 (witness): the thresholds at 344, 316, 296 and a failing short buffer. -/
theorem c2_variant_classification_witness :
    ((parsePacket (fun _ => 0) 0 (List.replicate 344 0)).map
        ParsedTelemetry.packetVariant = some PacketVariant.extended) ∧
    ((parsePacket (fun _ => 0) 0 (List.replicate 316 0)).map
        ParsedTelemetry.packetVariant = some PacketVariant.B) ∧
    ((parsePacket (fun _ => 0) 0 (List.replicate 296 0)).map
        ParsedTelemetry.packetVariant = some PacketVariant.A) ∧
    parsePacket (fun _ => 0) 0 (List.replicate 100 0) = none :=
  ⟨(c2_variant_classification (fun _ => 0) 0 _).1 (by simp),
   (c2_variant_classification (fun _ => 0) 0 _).2.1 (by simp) (by simp),
   (c2_variant_classification (fun _ => 0) 0 _).2.2.1 (by simp) (by simp),
   (c2_variant_classification (fun _ => 0) 0 _).2.2.2 (by simp)⟩

/-- C3: `decrypt` succeeds exactly when the input is at least 68 bytes and the
first 4 bytes of the Salsa20 output, read little-endian, equal the magic
constant; a short buffer fails, a wrong magic fails, the successful result is
exactly the transformed buffer, and no other failure mode exists. -/
theorem c3_decrypt_contract (data : List ℕ) :
    ((decrypt data).isSome ↔
      68 ≤ data.length ∧ readUInt32LE (decryptTransform data) 0 = GT7_MAGIC) ∧
    (data.length < 68 → decrypt data = none) ∧
    (68 ≤ data.length → readUInt32LE (decryptTransform data) 0 ≠ GT7_MAGIC →
      decrypt data = none) ∧
    (∀ p, decrypt data = some p → p = decryptTransform data) := by
  simp only [decrypt]
  split_ifs with h1 h2 <;>
    refine ⟨?_, ?_, ?_, ?_⟩ <;> simp_all <;> omega

/-- C3 (witness): a 10-byte buffer fails the length check, and a buffer whose
transform does not start with the magic word fails the magic check. -/
theorem c3_decrypt_contract_witness :
    decrypt (List.replicate 10 0) = none ∧ decrypt (List.replicate 68 0) = none :=
  ⟨(c3_decrypt_contract (List.replicate 10 0)).2.1 (by decide),
   (c3_decrypt_contract (List.replicate 68 0)).2.2.1 (by decide) (by decide)⟩

/-- C4: for buffers long enough to decrypt, the nonce is assembled from
`iv1` read little-endian at offset 0x40 and `iv2 = iv1 XOR 0xDEADBEAF`
(exactly this constant), serialized as `iv2` little-endian in bytes 0–3 and
`iv1` little-endian in bytes 4–7, and `decrypt` keys the Salsa20 pass with
exactly this nonce. -/
theorem c4_nonce_derivation (data : List ℕ) (h : 68 ≤ data.length) :
    deriveNonce data =
      toLEBytes4 (readUInt32LE data 0x40 ^^^ 0xDEADBEAF) ++
        toLEBytes4 (readUInt32LE data 0x40) ∧
    (deriveNonce data).length = 8 ∧
    (∀ i, i < 4 →
      (deriveNonce data).getD i 0 =
        (readUInt32LE data 0x40 ^^^ 0xDEADBEAF) / 256 ^ i % 256 ∧
      (deriveNonce data).getD (4 + i) 0 = readUInt32LE data 0x40 / 256 ^ i % 256) ∧
    decrypt data =
      (let t := salsa20Crypt data (SALSA20_KEY.take 32) (deriveNonce data)
       if readUInt32LE t 0 = GT7_MAGIC then some t else none) := by
  have hiv : readUInt32LE data 0x40 < 4294967296 := readUInt32LE_lt data 0x40
  have hxor : readUInt32LE data 0x40 ^^^ 0xDEADBEAF < 4294967296 := by
    have : readUInt32LE data 0x40 ^^^ 0xDEADBEAF < 2 ^ 32 :=
      Nat.xor_lt_two_pow (n := 32) hiv (by norm_num)
    simpa using this
  have hw : w32 (readUInt32LE data 0x40 ^^^ 0xDEADBEAF) =
      readUInt32LE data 0x40 ^^^ 0xDEADBEAF := Nat.mod_eq_of_lt hxor
  refine ⟨?_, ?_, ?_, ?_⟩
  · simp only [deriveNonce, hw]
  · simp [deriveNonce, toLEBytes4]
  · intro i hi
    interval_cases i <;>
      simp [deriveNonce, hw, toLEBytes4, List.getD] <;> norm_num
  · simp only [decrypt, decryptTransform]
    rw [if_neg (by omega)]

/-- C4 (witness): the nonce layout evaluated on a concrete 68-byte buffer. -/
theorem c4_nonce_derivation_witness :
    deriveNonce (List.replicate 68 7) =
      toLEBytes4 (readUInt32LE (List.replicate 68 7) 0x40 ^^^ 0xDEADBEAF) ++
        toLEBytes4 (readUInt32LE (List.replicate 68 7) 0x40) ∧
    (deriveNonce (List.replicate 68 7)).length = 8 ∧
    (∀ i, i < 4 →
      (deriveNonce (List.replicate 68 7)).getD i 0 =
        (readUInt32LE (List.replicate 68 7) 0x40 ^^^ 0xDEADBEAF) / 256 ^ i % 256 ∧
      (deriveNonce (List.replicate 68 7)).getD (4 + i) 0 =
        readUInt32LE (List.replicate 68 7) 0x40 / 256 ^ i % 256) ∧
    decrypt (List.replicate 68 7) =
      (let t := salsa20Crypt (List.replicate 68 7) (SALSA20_KEY.take 32)
        (deriveNonce (List.replicate 68 7))
       if readUInt32LE t 0 = GT7_MAGIC then some t else none) :=
  c4_nonce_derivation (List.replicate 68 7) (by decide)

/-- C9: processing a missing capture session, a session with no recorded
points, or a session whose points all fail the speed filter returns `none`
rather than an error. -/
theorem c9_empty_capture (sqrtQ : ℚ → ℚ) (nowIso : String) :
    processTrackCapture sqrtQ nowIso none = none ∧
    (∀ sess : CaptureSession, sess.points = [] →
      processTrackCapture sqrtQ nowIso (some sess) = none) ∧
    (∀ sess : CaptureSession,
      sess.points.filter (fun p => decide ((p.speed.getD 0) > 5)) = [] →
      processTrackCapture sqrtQ nowIso (some sess) = none) := by
  refine ⟨rfl, fun sess hp => ?_, fun sess hf => ?_⟩
  · simp [processTrackCapture, hp]
  · simp only [processTrackCapture, hf]
    split_ifs with h1 <;> simp_all

/-- Witness scenario for C9: a session holding one point at 3 km/h. -/
def c9wSession : CaptureSession :=
  { trackId := "t"
    isActive := false
    points := [{ x := 0, z := 0, d := 0, speed := some 3, timestamp := none }]
    startTime := 0 }

/-- C9 (witness): a session holding one point at 3 km/h (below the 5 km/h
filter) yields no track map. -/
theorem c9_empty_capture_witness :
    processTrackCapture id "" none = none ∧
    processTrackCapture id "" (some c9wSession) = none :=
  ⟨(c9_empty_capture id "").1,
   (c9_empty_capture id "").2.2 _ (by decide)⟩

/-- Counterexample input for C10: the sector-tracker input carrying the
vehicle identity decoded from the 296-byte buffer below. -/
def c10exInput : SectorInput :=
  { carId := 1
    lapCountRaw := 0
    lapDistance := 0
    lastLapTimeMs := 0
    positionX := none
    positionZ := none
    trackMap := none
    now := 0 }

/-- C10 (counterexample): a 296-byte buffer (the shortest accepted length,
variant A) with bytes 292–295 equal to `01 00 00 00` decodes to `carId = 1`,
and a sample with that vehicle identity *is* sector-tracked — refuting the
claim that samples from the shorter wire variants are never sector-tracked. -/
theorem c10_counterexample :
    (parsePacket (fun _ => 0) 0 (List.replicate 292 0 ++ [1, 0, 0, 0])).map
        (fun p => (p.carId, p.packetVariant)) = some (1, PacketVariant.A) ∧
    ((calculateSectorTimes emptyStates c10exInput).2).isSome = true := by
  constructor <;> decide

/-- C10 (amended): an input with vehicle identity 0 makes the tracker return
`none` without creating or mutating any per-vehicle state; but the decoder's
zero default for `carId` can never fire on an accepted packet, because
`parse` rejects buffers shorter than 296 bytes and the field occupies bytes
0x124–0x127 (ending exactly at byte 296), so every parsed sample — including
shortest-variant-A samples — carries the decoded identity field. -/
theorem c10_zero_car_id (states : SectorStates) (input : SectorInput)
    (h : input.carId = 0) :
    calculateSectorTimes states input = (states, none) ∧
    (∀ (decodeFloat : ℕ → ℚ) (now : ℚ) (data : List ℕ) (p : ParsedTelemetry),
      parsePacket decodeFloat now data = some p →
      p.carId = readInt32LE data 0x124 ∧ 0x124 + 4 ≤ data.length) := by
  constructor
  · simp [calculateSectorTimes, h]
  · intro decodeFloat now data p hp
    simp only [parsePacket, MIN_PACKET_LEN] at hp
    by_cases hlen : data.length < 296
    · rw [if_pos hlen] at hp
      exact absurd hp (by simp)
    · rw [if_neg hlen] at hp
      have hcar : hasBytes data 0x124 4 = true := by
        simp only [hasBytes, decide_eq_true_eq]
        omega
      have hp2 := Option.some.inj hp
      subst hp2
      refine ⟨?_, by omega⟩
      simp [hcar]

/-- Witness input for C10: a sample with vehicle identity 0. -/
def c10wInput : SectorInput :=
  { carId := 0
    lapCountRaw := 3
    lapDistance := 100
    lastLapTimeMs := 0
    positionX := none
    positionZ := none
    trackMap := none
    now := 5 }

/-- C10 (witness): the zero-identity early return evaluated on the empty state
map. -/
theorem c10_zero_car_id_witness :
    calculateSectorTimes emptyStates c10wInput = (emptyStates, none) :=
  (c10_zero_car_id emptyStates c10wInput rfl).1

/-- Reduction of the track-map block when no map is configured. -/
lemma applyTrackMap_none (st : SectorState) : applyTrackMap st none = st := rfl

/-- Looking up the car just written into the state map. -/
lemma statesSet_self (states : SectorStates) (carId : ℤ) (st : SectorState) :
    statesSet states carId st carId = some st := by
  simp [statesSet]

/-- Reduction of the rollover block when the lap counter has not changed. -/
lemma rolloverStep_noroll (st : SectorState) (input : SectorInput) (now : ℚ)
    (hnoroll : input.lapCountRaw = st.lastLapCountRaw) :
    rolloverStep st input now = st := by
  simp [rolloverStep, hnoroll]

/-- Normal form of the pre-fraction state pipeline on a rollover sample with
no track map configured: the learning rule applies and the sector timing
state is fully reset. -/
lemma rollover_pipeline (st : SectorState) (input : SectorInput)
    (htm : input.trackMap = none)
    (hroll : input.lapCountRaw ≠ st.lastLapCountRaw) :
    ({ jitterStep (rolloverStep (applyTrackMap st input.trackMap) input input.now)
        input input.now with lastLapDistance := input.lapDistance } : SectorState) =
    { lastLapCountRaw := input.lapCountRaw
      lapStartTs := input.now
      lapLengthMeters :=
        if input.lastLapTimeMs > 0 ∧ input.lastLapTimeMs ≠ st.lastLastLapTimeMs then
          if input.lapDistance > 500 ∧ input.lapDistance < 50000 then
            some input.lapDistance
          else st.lapLengthMeters
        else st.lapLengthMeters
      lastLastLapTimeMs :=
        if input.lastLapTimeMs > 0 ∧ input.lastLapTimeMs ≠ st.lastLastLapTimeMs then
          input.lastLapTimeMs
        else st.lastLastLapTimeMs
      s1End := st.s1End
      s2End := st.s2End
      currentSector := 1
      s1Ts := none
      s2Ts := none
      s3Ts := none
      sector1TimeMs := 0
      sector2TimeMs := 0
      sector3TimeMs := 0
      lastLapDistance := input.lapDistance } := by
  rw [htm, applyTrackMap_none]
  unfold rolloverStep
  rw [if_pos hroll, htm]
  unfold jitterStep
  split_ifs <;> first | rfl | simp_all

/-- Normal form of the pre-fraction state pipeline on a hard distance
regression without a counter change and with no track map: the same reset as
a rollover, leaving learned lap length and lap counter untouched. -/
lemma jitter_pipeline (st : SectorState) (input : SectorInput)
    (htm : input.trackMap = none)
    (hnoroll : input.lapCountRaw = st.lastLapCountRaw)
    (hjit : input.lapDistance + 50 < st.lastLapDistance) :
    ({ jitterStep (rolloverStep (applyTrackMap st input.trackMap) input input.now)
        input input.now with lastLapDistance := input.lapDistance } : SectorState) =
    { st with lapStartTs := input.now
              currentSector := 1
              s1Ts := none
              s2Ts := none
              s3Ts := none
              sector1TimeMs := 0
              sector2TimeMs := 0
              sector3TimeMs := 0
              lastLapDistance := input.lapDistance } := by
  rw [htm, applyTrackMap_none, rolloverStep_noroll st input input.now hnoroll]
  unfold jitterStep
  rw [if_pos hjit]

/-- `preState` on a rollover sample with no track map. -/
lemma preState_rollover (states : SectorStates) (input : SectorInput)
    (st : SectorState) (hst : states input.carId = some st)
    (htm : input.trackMap = none)
    (hroll : input.lapCountRaw ≠ st.lastLapCountRaw) :
    preState states input =
    { lastLapCountRaw := input.lapCountRaw
      lapStartTs := input.now
      lapLengthMeters :=
        if input.lastLapTimeMs > 0 ∧ input.lastLapTimeMs ≠ st.lastLastLapTimeMs then
          if input.lapDistance > 500 ∧ input.lapDistance < 50000 then
            some input.lapDistance
          else st.lapLengthMeters
        else st.lapLengthMeters
      lastLastLapTimeMs :=
        if input.lastLapTimeMs > 0 ∧ input.lastLapTimeMs ≠ st.lastLastLapTimeMs then
          input.lastLapTimeMs
        else st.lastLastLapTimeMs
      s1End := st.s1End
      s2End := st.s2End
      currentSector := 1
      s1Ts := none
      s2Ts := none
      s3Ts := none
      sector1TimeMs := 0
      sector2TimeMs := 0
      sector3TimeMs := 0
      lastLapDistance := input.lapDistance } := by
  unfold preState
  rw [hst]
  simp only [Option.getD_some]
  exact rollover_pipeline st input htm hroll

/-- `preState` on a hard-regression sample with no track map and no counter
change. -/
lemma preState_jitter (states : SectorStates) (input : SectorInput)
    (st : SectorState) (hst : states input.carId = some st)
    (htm : input.trackMap = none)
    (hnoroll : input.lapCountRaw = st.lastLapCountRaw)
    (hjit : input.lapDistance + 50 < st.lastLapDistance) :
    preState states input =
    { st with lapStartTs := input.now
              currentSector := 1
              s1Ts := none
              s2Ts := none
              s3Ts := none
              sector1TimeMs := 0
              sector2TimeMs := 0
              sector3TimeMs := 0
              lastLapDistance := input.lapDistance } := by
  unfold preState
  rw [hst]
  simp only [Option.getD_some]
  exact jitter_pipeline st input htm hnoroll hjit

/-- Counterexample state for C1: a car one tick before rollover, 3990 m into
the lap, nothing learned yet. -/
def c1exSt : SectorState :=
  { lastLapCountRaw := 0
    lapStartTs := 1000
    lapLengthMeters := none
    lastLastLapTimeMs := 0
    s1End := 0.33
    s2End := 0.66
    currentSector := 1
    s1Ts := none
    s2Ts := none
    s3Ts := none
    sector1TimeMs := 0
    sector2TimeMs := 0
    sector3TimeMs := 0
    lastLapDistance := 3990 }

/-- Counterexample state map for C1. -/
def c1exStates : SectorStates := fun k => if k = 1 then some c1exSt else none

/-- Counterexample input for C1: the rollover sample (counter 0 → 1) with lap
distance 4000 and fresh last-lap time. -/
def c1exInput : SectorInput :=
  { carId := 1
    lapCountRaw := 1
    lapDistance := 4000
    lastLapTimeMs := 65000
    positionX := none
    positionZ := none
    trackMap := none
    now := 2000 }

/-- C1 (counterexample): in the spec's own rollover scenario — counter
increments while the lap distance reads 4000 m and the last-lap time is fresh
— the lap length is learned as claimed, but the very same update immediately
re-enters Sector 2 (progress 4000/4000 = 1 ≥ 0.33) and stamps the Sector-1
transition time, so the update does *not* leave the state in Sector1 with all
sector timestamps cleared. -/
theorem c1_counterexample :
    ((calculateSectorTimes c1exStates c1exInput).1 1).map
        (fun st => (st.lapLengthMeters, st.currentSector, st.s1Ts)) =
      some (some 4000, 2, some 2000) := by
  have hpre := preState_rollover c1exStates c1exInput c1exSt rfl rfl (by decide)
  unfold calculateSectorTimes
  rw [if_neg (by decide)]
  simp only [hpre]
  norm_num [c1exInput, c1exSt, transitionStep, computeLapFraction, truthy, clamp01,
    centerlineNonempty, statesSet, runningMs, sector3Step, mkSectorData]

/-- C1 (amended): on a rollover sample with no Track Map, the tracker learns
the observed lap distance as lap length exactly when the reported last-lap
duration is positive and changed, and the distance lies strictly between 500
and 50000 m (otherwise the prior estimate is preserved); the rollover resets
lap-start to now, clears all sector durations and the Sector-2/3 timestamps,
and leaves the boundary fractions unchanged — but the same update's
transition logic may immediately advance the state to Sector2, stamping the
Sector-1 timestamp with now (the Sector-1 duration stays 0, i.e. reported
undefined, because the lap just started). -/
theorem c1_rollover_reset (states : SectorStates) (input : SectorInput)
    (st : SectorState)
    (hst : states input.carId = some st)
    (hcar : input.carId ≠ 0)
    (htm : input.trackMap = none)
    (hroll : input.lapCountRaw ≠ st.lastLapCountRaw) :
    ∃ st2 : SectorState,
      (calculateSectorTimes states input).1 input.carId = some st2 ∧
      st2.lapLengthMeters =
        (if input.lastLapTimeMs > 0 ∧ input.lastLapTimeMs ≠ st.lastLastLapTimeMs then
          if input.lapDistance > 500 ∧ input.lapDistance < 50000 then
            some input.lapDistance
          else st.lapLengthMeters
        else st.lapLengthMeters) ∧
      st2.lapStartTs = input.now ∧
      st2.sector1TimeMs = 0 ∧ st2.sector2TimeMs = 0 ∧ st2.sector3TimeMs = 0 ∧
      st2.s2Ts = none ∧ st2.s3Ts = none ∧
      st2.s1End = st.s1End ∧ st2.s2End = st.s2End ∧
      st2.lastLapCountRaw = input.lapCountRaw ∧
      ((st2.currentSector = 1 ∧ st2.s1Ts = none) ∨
        (st2.currentSector = 2 ∧ st2.s1Ts = some input.now)) := by
  have hpre := preState_rollover states input st hst htm hroll
  unfold calculateSectorTimes
  rw [if_neg hcar]
  simp only [hpre, transitionStep, sector3Step, htm, centerlineNonempty,
    Bool.or_false]
  rw [statesSet_self]
  split_ifs <;>
    refine ⟨_, rfl, ?_⟩ <;>
    simp_all [sub_self]

/-- Witness state for C1: previous counter 4, a learned length of 5000,
mid-lap values to be cleared by the rollover. -/
def c1wSt : SectorState :=
  { lastLapCountRaw := 4
    lapStartTs := 100
    lapLengthMeters := some 5000
    lastLastLapTimeMs := 60000
    s1End := 0.33
    s2End := 0.66
    currentSector := 2
    s1Ts := some 150
    s2Ts := none
    s3Ts := none
    sector1TimeMs := 50
    sector2TimeMs := 0
    sector3TimeMs := 0
    lastLapDistance := 4990 }

/-- Witness state map for C1. -/
def c1wStates : SectorStates := fun k => if k = 7 then some c1wSt else none

/-- Witness input for C1: rollover (counter 4 → 5) with an implausible
distance reading of 100 m, so the prior estimate must be preserved. -/
def c1wInput : SectorInput :=
  { carId := 7
    lapCountRaw := 5
    lapDistance := 100
    lastLapTimeMs := 65000
    positionX := none
    positionZ := none
    trackMap := none
    now := 2000 }

/-- C1 (witness): the amended rollover behaviour instantiated on a concrete
state (previous counter 4, learned length 5000) and a rollover sample whose
implausible 100 m distance must not overwrite the estimate. -/
theorem c1_rollover_reset_witness :
    ∃ st2 : SectorState,
      (calculateSectorTimes c1wStates c1wInput).1 c1wInput.carId = some st2 ∧
      st2.lapLengthMeters =
        (if c1wInput.lastLapTimeMs > 0 ∧
            c1wInput.lastLapTimeMs ≠ c1wSt.lastLastLapTimeMs then
          if c1wInput.lapDistance > 500 ∧ c1wInput.lapDistance < 50000 then
            some c1wInput.lapDistance
          else c1wSt.lapLengthMeters
        else c1wSt.lapLengthMeters) ∧
      st2.lapStartTs = c1wInput.now ∧
      st2.sector1TimeMs = 0 ∧ st2.sector2TimeMs = 0 ∧ st2.sector3TimeMs = 0 ∧
      st2.s2Ts = none ∧ st2.s3Ts = none ∧
      st2.s1End = c1wSt.s1End ∧ st2.s2End = c1wSt.s2End ∧
      st2.lastLapCountRaw = c1wInput.lapCountRaw ∧
      ((st2.currentSector = 1 ∧ st2.s1Ts = none) ∨
        (st2.currentSector = 2 ∧ st2.s1Ts = some c1wInput.now)) :=
  c1_rollover_reset c1wStates c1wInput c1wSt rfl
    (by decide) rfl (by decide)

/-- Counterexample track map for C5: a configured map whose length differs
from the tracker's learned lap length (empty centerline, no sector
fractions). -/
def c5exTm : TrackMap :=
  { trackId := "t"
    lengthMeters := 5000
    centerline := []
    sectorFractions := []
    capturedAt := "" }

/-- Counterexample state for C5: learned length 4000, previous lap distance
3000, Sector1. -/
def c5exSt : SectorState :=
  { lastLapCountRaw := 5
    lapStartTs := 0
    lapLengthMeters := some 4000
    lastLastLapTimeMs := 0
    s1End := 33/100
    s2End := 66/100
    currentSector := 1
    s1Ts := none
    s2Ts := none
    s3Ts := none
    sector1TimeMs := 0
    sector2TimeMs := 0
    sector3TimeMs := 0
    lastLapDistance := 3000 }

/-- Counterexample state map for C5. -/
def c5exStates : SectorStates := fun k => if k = 1 then some c5exSt else none

/-- Counterexample input for C5: lap distance regresses 3000 → 2000 (more
than 50 m) with no counter change, with the track map configured. -/
def c5exInput : SectorInput :=
  { carId := 1
    lapCountRaw := 5
    lapDistance := 2000
    lastLapTimeMs := 0
    positionX := none
    positionZ := none
    trackMap := some c5exTm
    now := 100 }

/-- C5 (counterexample): on a jitter-reset sample the update does *not* leave
the learned lap length unmodified nor the state in Sector1 with timestamps
cleared — the configured track map overwrites the length (4000 → 5000) and
the recomputed fraction 2000/5000 = 0.4 ≥ 0.33 immediately re-enters Sector2,
stamping its timestamp. -/
theorem c5_counterexample :
    ((calculateSectorTimes c5exStates c5exInput).1 1).map
        (fun st => (st.lapLengthMeters, st.currentSector, st.s1Ts)) =
      some (some 5000, 2, some 100) := by
  norm_num [calculateSectorTimes, c5exStates, c5exInput, c5exSt, c5exTm,
    preState, initialState, applyTrackMap, rolloverStep, jitterStep,
    computeLapFraction, transitionStep, sector3Step, mkSectorData, truthy,
    clamp01, centerlineNonempty, statesSet, runningMs, getDistanceAlongTrack]

/-- C5 (amended): a hard lap-distance regression (more than 50 m below the
previous sample) without a counter change, with no Track Map configured,
triggers the rollover reset sub-sequence — lap-start set to now, all sector
durations cleared to 0, Sector-2/3 timestamps cleared — and neither the
learned lap length nor the lap counter nor the boundary fractions change; the
same update's transition logic may, however, immediately advance the state to
Sector2 (stamping the Sector-1 timestamp with now) when the recomputed
fraction already reaches the first boundary.  (With a Track Map configured
the map's length additionally overwrites the learned lap length on every
update, as the counterexample shows.) -/
theorem c5_jitter_reset (states : SectorStates) (input : SectorInput)
    (st : SectorState)
    (hst : states input.carId = some st)
    (hcar : input.carId ≠ 0)
    (htm : input.trackMap = none)
    (hnoroll : input.lapCountRaw = st.lastLapCountRaw)
    (hjit : input.lapDistance + 50 < st.lastLapDistance) :
    ∃ st2 : SectorState,
      (calculateSectorTimes states input).1 input.carId = some st2 ∧
      st2.lapLengthMeters = st.lapLengthMeters ∧
      st2.lastLapCountRaw = st.lastLapCountRaw ∧
      st2.lastLastLapTimeMs = st.lastLastLapTimeMs ∧
      st2.lapStartTs = input.now ∧
      st2.sector1TimeMs = 0 ∧ st2.sector2TimeMs = 0 ∧ st2.sector3TimeMs = 0 ∧
      st2.s2Ts = none ∧ st2.s3Ts = none ∧
      st2.s1End = st.s1End ∧ st2.s2End = st.s2End ∧
      ((st2.currentSector = 1 ∧ st2.s1Ts = none) ∨
        (st2.currentSector = 2 ∧ st2.s1Ts = some input.now)) := by
  have hpre := preState_jitter states input st hst htm hnoroll hjit
  unfold calculateSectorTimes
  rw [if_neg hcar]
  simp only [hpre, transitionStep, sector3Step, htm, centerlineNonempty,
    Bool.or_false]
  rw [statesSet_self]
  split_ifs <;>
    refine ⟨_, rfl, ?_⟩ <;>
    simp_all [sub_self]

/-- Witness state for C5: learned length 4000, previous lap distance 3000. -/
def c5wSt : SectorState :=
  { lastLapCountRaw := 5
    lapStartTs := 0
    lapLengthMeters := some 4000
    lastLastLapTimeMs := 0
    s1End := 33/100
    s2End := 66/100
    currentSector := 3
    s1Ts := some 10
    s2Ts := some 20
    s3Ts := none
    sector1TimeMs := 10
    sector2TimeMs := 10
    sector3TimeMs := 5
    lastLapDistance := 3000 }

/-- Witness state map for C5. -/
def c5wStates : SectorStates := fun k => if k = 2 then some c5wSt else none

/-- Witness input for C5: distance drops 3000 → 100 with the counter
unchanged and no track map. -/
def c5wInput : SectorInput :=
  { carId := 2
    lapCountRaw := 5
    lapDistance := 100
    lastLapTimeMs := 0
    positionX := none
    positionZ := none
    trackMap := none
    now := 50 }

/-- C5 (witness): the amended jitter-reset behaviour instantiated on a
concrete mid-Sector3 state and a regressing sample. -/
theorem c5_jitter_reset_witness :
    ∃ st2 : SectorState,
      (calculateSectorTimes c5wStates c5wInput).1 c5wInput.carId = some st2 ∧
      st2.lapLengthMeters = c5wSt.lapLengthMeters ∧
      st2.lastLapCountRaw = c5wSt.lastLapCountRaw ∧
      st2.lastLastLapTimeMs = c5wSt.lastLastLapTimeMs ∧
      st2.lapStartTs = c5wInput.now ∧
      st2.sector1TimeMs = 0 ∧ st2.sector2TimeMs = 0 ∧ st2.sector3TimeMs = 0 ∧
      st2.s2Ts = none ∧ st2.s3Ts = none ∧
      st2.s1End = c5wSt.s1End ∧ st2.s2End = c5wSt.s2End ∧
      ((st2.currentSector = 1 ∧ st2.s1Ts = none) ∨
        (st2.currentSector = 2 ∧ st2.s1Ts = some c5wInput.now)) :=
  c5_jitter_reset c5wStates c5wInput c5wSt rfl
    (by decide) rfl (by decide) (by norm_num [c5wInput, c5wSt])

/-- Reduction of the lap-fraction computation when the position-based branch
is unavailable (no map, or either coordinate missing). -/
lemma computeLapFraction_no_position (st : SectorState) (input : SectorInput)
    (h : input.trackMap = none ∨ input.positionX = none ∨ input.positionZ = none) :
    computeLapFraction st input =
      (if truthy st.lapLengthMeters && decide (input.lapDistance > 0) then
        clamp01 (input.lapDistance / st.lapLengthMeters.getD 0)
      else 0) := by
  unfold computeLapFraction
  rcases h3 : input.trackMap with _ | tm <;>
    rcases h4 : input.positionX with _ | px <;>
      rcases h5 : input.positionZ with _ | pz <;>
        simp_all

/-- The sector-transition block never changes the learned lap length. -/
lemma transitionStep_lapLength (st : SectorState) (tm : Option TrackMap)
    (f now : ℚ) :
    (transitionStep st tm f now).lapLengthMeters = st.lapLengthMeters := by
  unfold transitionStep
  split_ifs <;> rfl

/-- Counterexample track map for C6: non-empty centerline and a configured
first sector boundary of 0. -/
def c6exTm : TrackMap :=
  { trackId := "t"
    lengthMeters := 5000
    centerline := [{ x := 0, z := 0, d := 1/2, speed := none, timestamp := none }]
    sectorFractions := [0, 66/100]
    capturedAt := "" }

/-- Counterexample state for C6: Sector1 with a learned length. -/
def c6exSt : SectorState :=
  { lastLapCountRaw := 5
    lapStartTs := 0
    lapLengthMeters := some 4000
    lastLastLapTimeMs := 0
    s1End := 33/100
    s2End := 66/100
    currentSector := 1
    s1Ts := none
    s2Ts := none
    s3Ts := none
    sector1TimeMs := 0
    sector2TimeMs := 0
    sector3TimeMs := 0
    lastLapDistance := 0 }

/-- Counterexample state map for C6. -/
def c6exStates : SectorStates := fun k => if k = 1 then some c6exSt else none

/-- Counterexample input for C6: the track map is configured but the sample
carries no position, and the lap distance is 0, so the progress fraction is
0. -/
def c6exInput : SectorInput :=
  { carId := 1
    lapCountRaw := 5
    lapDistance := 0
    lastLapTimeMs := 0
    positionX := none
    positionZ := none
    trackMap := some c6exTm
    now := 777 }

/-- C6 (counterexample): with a configured map whose first boundary fraction
is 0 and a sample with neither position nor positive lap distance, the
progress fraction is 0 — yet a sector transition *does* fire on that update
(Sector1 → Sector2 with a stamped duration), refuting the claim that no
transition fires when the fraction falls back to 0. -/
theorem c6_counterexample :
    ((calculateSectorTimes c6exStates c6exInput).2).map
        (fun d => (d.lapFraction, d.currentSector, d.sector1Time)) =
      some (0, 2, some 777) := by
  norm_num [calculateSectorTimes, c6exStates, c6exInput, c6exSt, c6exTm,
    preState, initialState, applyTrackMap, rolloverStep, jitterStep,
    computeLapFraction, transitionStep, sector3Step, mkSectorData, truthy,
    clamp01, centerlineNonempty, statesSet, runningMs, getDistanceAlongTrack]

/-- C6 (amended): the progress fraction reported by an update is computed in
priority order — (a) the nearest-centerline lookup when a Track Map is
present and the sample carries both coordinates; (b) else lap distance over
the effective (truthy) lap length, clamped to [0,1], when the lap distance is
strictly positive; (c) else 0.  In case (c) a sector transition still cannot
fire, *provided* the active sector's boundary fraction is positive or no
Track Map with a non-empty centerline is in effect — with a non-empty
centerline and a boundary fraction ≤ 0 the transition gate stays open at zero
progress (see the counterexample). -/
theorem c6_fraction_priority (states : SectorStates) (input : SectorInput)
    (hcar : input.carId ≠ 0) :
    ∃ d : SectorData, (calculateSectorTimes states input).2 = some d ∧
      (∀ tm px pz, input.trackMap = some tm → input.positionX = some px →
        input.positionZ = some pz →
        d.lapFraction = getDistanceAlongTrack tm.centerline px pz) ∧
      ((input.trackMap = none ∨ input.positionX = none ∨ input.positionZ = none) →
        (truthy d.lapLengthMeters = true → input.lapDistance > 0 →
          d.lapFraction = clamp01 (input.lapDistance / d.lapLengthMeters.getD 0)) ∧
        (¬(truthy d.lapLengthMeters = true ∧ input.lapDistance > 0) →
          d.lapFraction = 0)) ∧
      (∀ st : SectorState, ∀ tm : Option TrackMap, ∀ now : ℚ,
        (centerlineNonempty tm = false ∨
          ((st.currentSector = 1 → st.s1End > 0) ∧
            (st.currentSector = 2 → st.s2End > 0))) →
        transitionStep st tm 0 now = st) := by
  unfold calculateSectorTimes
  rw [if_neg hcar]
  have hlen3 : ∀ st5 : SectorState,
      (sector3Step st5 input.now).lapLengthMeters = st5.lapLengthMeters := by
    intro st5
    unfold sector3Step
    split_ifs <;> rfl
  refine ⟨_, rfl, ?_, ?_, ?_⟩
  · intro tm px pz htm hpx hpz
    simp only [mkSectorData, computeLapFraction, htm, hpx, hpz]
  · intro hdisj
    simp only [mkSectorData, hlen3, transitionStep_lapLength]
    rw [computeLapFraction_no_position _ _ hdisj]
    constructor
    · intro hT hD
      rw [if_pos]
      simp [hT, hD]
    · intro hn
      rw [if_neg]
      intro hcontra
      rw [Bool.and_eq_true, decide_eq_true_eq] at hcontra
      exact hn ⟨hcontra.1, hcontra.2⟩
  · intro st tm now h
    unfold transitionStep
    have h0 : decide ((0:ℚ) > 0) = false := by norm_num
    rcases h with h | h
    · rw [h, h0]
      simp
    · rw [h0]
      simp only [Bool.false_or]
      have hc1 : ¬(st.currentSector = 1 ∧ (0:ℚ) ≥ st.s1End) := by
        rintro ⟨hs, hge⟩
        exact absurd (h.1 hs) (by linarith)
      have hc2 : ¬(st.currentSector = 2 ∧ (0:ℚ) ≥ st.s2End) := by
        rintro ⟨hs, hge⟩
        exact absurd (h.2 hs) (by linarith)
      rw [if_neg hc1, if_neg hc2, ite_self]

/-- Witness state for C6: Sector1 with a learned length and default
boundaries. -/
def c6wSt : SectorState :=
  { lastLapCountRaw := 2
    lapStartTs := 0
    lapLengthMeters := some 4000
    lastLastLapTimeMs := 0
    s1End := 33/100
    s2End := 66/100
    currentSector := 1
    s1Ts := none
    s2Ts := none
    s3Ts := none
    sector1TimeMs := 0
    sector2TimeMs := 0
    sector3TimeMs := 0
    lastLapDistance := 1000 }

/-- Witness state map for C6. -/
def c6wStates : SectorStates := fun k => if k = 3 then some c6wSt else none

/-- Witness input for C6: no track map, positive lap distance 1200. -/
def c6wInput : SectorInput :=
  { carId := 3
    lapCountRaw := 2
    lapDistance := 1200
    lastLapTimeMs := 0
    positionX := none
    positionZ := none
    trackMap := none
    now := 60 }

/-- C6 (witness): the fraction-priority rules instantiated on a concrete
distance-based sample. -/
theorem c6_fraction_priority_witness :
    ∃ d : SectorData, (calculateSectorTimes c6wStates c6wInput).2 = some d ∧
      (∀ tm px pz, c6wInput.trackMap = some tm → c6wInput.positionX = some px →
        c6wInput.positionZ = some pz →
        d.lapFraction = getDistanceAlongTrack tm.centerline px pz) ∧
      ((c6wInput.trackMap = none ∨ c6wInput.positionX = none ∨
          c6wInput.positionZ = none) →
        (truthy d.lapLengthMeters = true → c6wInput.lapDistance > 0 →
          d.lapFraction = clamp01 (c6wInput.lapDistance / d.lapLengthMeters.getD 0)) ∧
        (¬(truthy d.lapLengthMeters = true ∧ c6wInput.lapDistance > 0) →
          d.lapFraction = 0)) ∧
      (∀ st : SectorState, ∀ tm : Option TrackMap, ∀ now : ℚ,
        (centerlineNonempty tm = false ∨
          ((st.currentSector = 1 → st.s1End > 0) ∧
            (st.currentSector = 2 → st.s2End > 0))) →
        transitionStep st tm 0 now = st) :=
  c6_fraction_priority c6wStates c6wInput (by decide)

/-! Auxiliary development for the nearest-point claims: the scan loop of the
position query computes the stored fraction of the *first* point attaining
the minimal squared distance. -/

/-- The minimal squared distance together with the stored fraction of the
first point attaining it (a specification-level recursion used to
characterise the accumulator loop of the source). -/
def firstArgmin (posX posZ : ℚ) : List TrackPoint → Option (ℚ × ℚ)
  | [] => none
  | p :: rest =>
    match firstArgmin posX posZ rest with
    | none => some (distSqTo posX posZ p, p.d)
    | some (m, f) =>
      if distSqTo posX posZ p ≤ m then some (distSqTo posX posZ p, p.d)
      else some (m, f)

/-- Unfolding the scan with a finite running minimum. -/
lemma scanNearest_some (posX posZ : ℚ) (l : List TrackPoint) :
    ∀ (m bf : ℚ),
      scanNearest posX posZ l (some m) bf =
        (match firstArgmin posX posZ l with
          | none => bf
          | some (m2, f2) => if m2 < m then f2 else bf) := by
  induction l with
  | nil => intro m bf; rfl
  | cons p rest ih =>
    intro m bf
    rcases hfa : firstArgmin posX posZ rest with _ | ⟨m2, f2⟩
    · by_cases hZ : distSqTo posX posZ p < m <;>
        simp only [scanNearest, beatsMin, firstArgmin, ih, hfa, hZ,
          decide_True, decide_False, Bool.false_eq_true, eq_self_iff_true,
          if_true, if_false] <;>
        simp [hZ]
    · by_cases hle : distSqTo posX posZ p ≤ m2 <;>
        by_cases hZ : distSqTo posX posZ p < m <;>
          simp only [scanNearest, beatsMin, firstArgmin, ih, hfa, hle, hZ,
            decide_True, decide_False, Bool.false_eq_true, eq_self_iff_true,
            if_true, if_false] <;>
          split_ifs <;> first | rfl | linarith | (exfalso; assumption)

/-- The scan from the `Infinity` start returns the fraction of the first
minimiser. -/
lemma scanNearest_none (posX posZ : ℚ) (l : List TrackPoint) :
    scanNearest posX posZ l none 0 =
      (match firstArgmin posX posZ l with
        | none => 0
        | some (_, f) => f) := by
  cases l with
  | nil => rfl
  | cons p rest =>
    simp only [scanNearest, beatsMin, if_true, firstArgmin]
    rw [scanNearest_some]
    rcases hfa : firstArgmin posX posZ rest with _ | ⟨m2, f2⟩
    · simp [hfa]
    · by_cases hle : distSqTo posX posZ p ≤ m2 <;>
        simp only [hfa, hle, if_true, if_false] <;>
        split_ifs <;> first | rfl | linarith

/-- `firstArgmin` really is the first-encountered minimiser: its value is the
squared distance and fraction of a point whose squared distance is minimal,
with every strictly earlier point strictly farther away. -/
lemma firstArgmin_spec (posX posZ : ℚ) (l : List TrackPoint) (hl : l ≠ []) :
    ∃ (i : ℕ) (hi : i < l.length),
      firstArgmin posX posZ l =
        some (distSqTo posX posZ (l.get ⟨i, hi⟩), (l.get ⟨i, hi⟩).d) ∧
      (∀ (j : ℕ) (hj : j < l.length),
        distSqTo posX posZ (l.get ⟨i, hi⟩) ≤ distSqTo posX posZ (l.get ⟨j, hj⟩)) ∧
      (∀ (j : ℕ) (hj : j < l.length), j < i →
        distSqTo posX posZ (l.get ⟨i, hi⟩) < distSqTo posX posZ (l.get ⟨j, hj⟩)) := by
  induction l with
  | nil => exact absurd rfl hl
  | cons p rest ih =>
    by_cases hne : rest = []
    · subst hne
      refine ⟨0, by simp, by simp [firstArgmin], ?_, ?_⟩
      · intro j hj
        have hj0 : j = 0 := by simpa using hj
        subst hj0
        exact le_refl _
      · intro j hj hji
        omega
    · obtain ⟨i, hi, heq, hmin, hstrict⟩ := ih hne
      by_cases hle : distSqTo posX posZ p ≤ distSqTo posX posZ (rest.get ⟨i, hi⟩)
      · refine ⟨0, by simp, ?_, ?_, ?_⟩
        · simp only [firstArgmin, heq]
          rw [if_pos hle]
          simp
        · intro j hj
          cases j with
          | zero => exact le_refl _
          | succ j2 =>
            have hj2 : j2 < rest.length := by simpa using hj
            calc distSqTo posX posZ ((p :: rest).get ⟨0, by simp⟩)
                ≤ distSqTo posX posZ (rest.get ⟨i, hi⟩) := hle
              _ ≤ distSqTo posX posZ (rest.get ⟨j2, hj2⟩) := hmin j2 hj2
              _ = distSqTo posX posZ ((p :: rest).get ⟨j2 + 1, hj⟩) := by
                  simp [List.get_cons_succ]
        · intro j hj hji
          omega
      · push_neg at hle
        refine ⟨i + 1, by simpa using hi, ?_, ?_, ?_⟩
        · simp only [firstArgmin, heq]
          rw [if_neg (by linarith)]
          simp [List.get_cons_succ]
        · intro j hj
          cases j with
          | zero =>
            simp only [List.get_cons_succ]
            exact le_of_lt hle
          | succ j2 =>
            have hj2 : j2 < rest.length := by simpa using hj
            simpa [List.get_cons_succ] using hmin j2 hj2
        · intro j hj hji
          cases j with
          | zero =>
            simpa [List.get_cons_succ] using hle
          | succ j2 =>
            have hj2 : j2 < rest.length := by simpa using hj
            have hj2i : j2 < i := by omega
            simpa [List.get_cons_succ] using hstrict j2 hj2 hj2i

/-- Squared distances are nonnegative. -/
lemma distSqTo_nonneg (posX posZ : ℚ) (p : TrackPoint) :
    0 ≤ distSqTo posX posZ p :=
  add_nonneg (mul_self_nonneg _) (mul_self_nonneg _)

/-- A vanishing squared distance forces both coordinates to agree. -/
lemma distSqTo_eq_zero (posX posZ : ℚ) (p : TrackPoint)
    (h : distSqTo posX posZ p = 0) : p.x = posX ∧ p.z = posZ := by
  unfold distSqTo at h
  have h1 := mul_self_nonneg (posX - p.x)
  have h2 := mul_self_nonneg (posZ - p.z)
  have hx : (posX - p.x) * (posX - p.x) = 0 := by linarith
  have hz : (posZ - p.z) * (posZ - p.z) = 0 := by linarith
  have hx2 : posX - p.x = 0 := by
    rcases mul_eq_zero.mp hx with h3 | h3 <;> exact h3
  have hz2 : posZ - p.z = 0 := by
    rcases mul_eq_zero.mp hz with h3 | h3 <;> exact h3
  constructor <;> linarith

/-- With an order-reflecting square root (which the real square root is on
nonnegative inputs), the plain-distance scan of `distanceAlongTrack` tracks
the squared-distance scan point for point. -/
lemma scanNearestPoint_lockstep (sqrtQ : ℚ → ℚ)
    (hmono : ∀ a b : ℚ, 0 ≤ a → 0 ≤ b → (sqrtQ a < sqrtQ b ↔ a < b))
    (x z : ℚ) (l : List TrackPoint) :
    ∀ (m : ℚ), 0 ≤ m → ∀ (p : TrackPoint),
      ∃ q : TrackPoint,
        scanNearestPoint sqrtQ x z l (some (sqrtQ m)) (some p) = some q ∧
        q.d = scanNearest x z l (some m) p.d := by
  induction l with
  | nil => exact fun m _ p => ⟨p, rfl, rfl⟩
  | cons r rest ih =>
    intro m hm p
    have hsq : (r.x - x) * (r.x - x) + (r.z - z) * (r.z - z) = distSqTo x z r := by
      unfold distSqTo
      ring
    have hnn : 0 ≤ distSqTo x z r := distSqTo_nonneg x z r
    simp only [scanNearestPoint, scanNearest, beatsMin, hsq, decide_eq_true_eq]
    by_cases hlt : distSqTo x z r < m
    · rw [if_pos ((hmono _ _ hnn hm).mpr hlt), if_pos hlt]
      exact ih (distSqTo x z r) hnn r
    · rw [if_neg (fun hc => hlt ((hmono _ _ hnn hm).mp hc)), if_neg hlt]
      exact ih m hm p

/-- The distance-in-meters query is the fraction query times the map's
length. -/
lemma distanceAlongTrack_eq (sqrtQ : ℚ → ℚ)
    (hmono : ∀ a b : ℚ, 0 ≤ a → 0 ≤ b → (sqrtQ a < sqrtQ b ↔ a < b))
    (x z : ℚ) (tm : TrackMap) (hne : tm.centerline ≠ []) :
    distanceAlongTrack sqrtQ x z tm =
      getDistanceAlongTrack tm.centerline x z * tm.lengthMeters := by
  unfold distanceAlongTrack getDistanceAlongTrack
  rcases hcl : tm.centerline with _ | ⟨p, rest⟩
  · exact absurd hcl hne
  · simp only [List.length_cons, if_neg (Nat.succ_ne_zero _)]
    have hsq : (p.x - x) * (p.x - x) + (p.z - z) * (p.z - z) = distSqTo x z p := by
      unfold distSqTo
      ring
    simp only [scanNearestPoint, scanNearest, beatsMin, eq_self_iff_true,
      if_true, hsq]
    obtain ⟨q, hq, hqd⟩ :=
      scanNearestPoint_lockstep sqrtQ hmono x z rest (distSqTo x z p)
        (distSqTo_nonneg x z p) p
    rw [hq]
    show q.d * tm.lengthMeters =
      scanNearest x z rest (some (distSqTo x z p)) p.d * tm.lengthMeters
    rw [hqd]

/-- Counterexample centerline for C7: two points at identical coordinates
with different stored fractions. -/
def c7exCl : List TrackPoint :=
  [{ x := 0, z := 0, d := 1/5, speed := none, timestamp := none },
   { x := 0, z := 0, d := 7/10, speed := none, timestamp := none }]

/-- C7 (counterexample): querying at the *second* point's own coordinates
(0, 0) returns 1/5 — the first duplicate's fraction — not that point's stored
fraction 7/10, refuting the claim's "querying at a centerline point's own
coordinates returns that point's stored fraction". -/
theorem c7_counterexample :
    getDistanceAlongTrack c7exCl 0 0 = 1/5 ∧
    (c7exCl.get ⟨1, by decide⟩).x = 0 ∧
    (c7exCl.get ⟨1, by decide⟩).z = 0 ∧
    (c7exCl.get ⟨1, by decide⟩).d = 7/10 ∧
    (1 : ℚ)/5 ≠ 7/10 := by
  refine ⟨?_, rfl, rfl, rfl, by norm_num⟩
  norm_num [getDistanceAlongTrack, scanNearest, beatsMin, distSqTo, c7exCl]

/-- C7 (amended): the position query returns the stored fraction of the
centerline point with minimal squared Euclidean distance to the target, ties
broken in favour of the earliest point; querying at a centerline point's own
coordinates returns that point's stored fraction *provided no strictly
earlier point shares those exact coordinates* (otherwise the earliest
duplicate's fraction is returned); and the distance-in-meters variant returns
the selected fraction times the map's total length. -/
theorem c7_nearest_point :
    (∀ (cl : List TrackPoint) (posX posZ : ℚ), cl ≠ [] →
      ∃ (i : ℕ) (hi : i < cl.length),
        getDistanceAlongTrack cl posX posZ = (cl.get ⟨i, hi⟩).d ∧
        (∀ (j : ℕ) (hj : j < cl.length),
          distSqTo posX posZ (cl.get ⟨i, hi⟩) ≤
            distSqTo posX posZ (cl.get ⟨j, hj⟩)) ∧
        (∀ (j : ℕ) (hj : j < cl.length), j < i →
          distSqTo posX posZ (cl.get ⟨i, hi⟩) <
            distSqTo posX posZ (cl.get ⟨j, hj⟩))) ∧
    (∀ (cl : List TrackPoint) (k : ℕ) (hk : k < cl.length),
      (∀ (j : ℕ) (hj : j < cl.length), j < k →
        ¬((cl.get ⟨j, hj⟩).x = (cl.get ⟨k, hk⟩).x ∧
          (cl.get ⟨j, hj⟩).z = (cl.get ⟨k, hk⟩).z)) →
      getDistanceAlongTrack cl (cl.get ⟨k, hk⟩).x (cl.get ⟨k, hk⟩).z =
        (cl.get ⟨k, hk⟩).d) ∧
    (∀ (sqrtQ : ℚ → ℚ),
      (∀ a b : ℚ, 0 ≤ a → 0 ≤ b → (sqrtQ a < sqrtQ b ↔ a < b)) →
      ∀ (tm : TrackMap) (x z : ℚ), tm.centerline ≠ [] →
        distanceAlongTrack sqrtQ x z tm =
          getDistanceAlongTrack tm.centerline x z * tm.lengthMeters) := by
  have main : ∀ (cl : List TrackPoint) (posX posZ : ℚ), cl ≠ [] →
      ∃ (i : ℕ) (hi : i < cl.length),
        getDistanceAlongTrack cl posX posZ = (cl.get ⟨i, hi⟩).d ∧
        (∀ (j : ℕ) (hj : j < cl.length),
          distSqTo posX posZ (cl.get ⟨i, hi⟩) ≤
            distSqTo posX posZ (cl.get ⟨j, hj⟩)) ∧
        (∀ (j : ℕ) (hj : j < cl.length), j < i →
          distSqTo posX posZ (cl.get ⟨i, hi⟩) <
            distSqTo posX posZ (cl.get ⟨j, hj⟩)) := by
    intro cl posX posZ hne
    obtain ⟨i, hi, heq, hmin, hstrict⟩ := firstArgmin_spec posX posZ cl hne
    refine ⟨i, hi, ?_, hmin, hstrict⟩
    unfold getDistanceAlongTrack
    rw [if_neg (by simpa [List.length_eq_zero] using hne), scanNearest_none, heq]
  refine ⟨main, ?_, ?_⟩
  · intro cl k hk hnodup
    have hne : cl ≠ [] :=
      List.ne_nil_of_length_pos (lt_of_le_of_lt (Nat.zero_le k) hk)
    obtain ⟨i, hi, heq, hmin, hstrict⟩ :=
      main cl (cl.get ⟨k, hk⟩).x (cl.get ⟨k, hk⟩).z hne
    have hdk : distSqTo (cl.get ⟨k, hk⟩).x (cl.get ⟨k, hk⟩).z (cl.get ⟨k, hk⟩) = 0 := by
      unfold distSqTo
      ring
    have hzero :
        distSqTo (cl.get ⟨k, hk⟩).x (cl.get ⟨k, hk⟩).z (cl.get ⟨i, hi⟩) = 0 := by
      have h1 := hmin k hk
      rw [hdk] at h1
      exact le_antisymm h1 (distSqTo_nonneg _ _ _)
    have hik : i = k := by
      rcases lt_trichotomy i k with h | h | h
      · obtain ⟨hx, hz⟩ := distSqTo_eq_zero _ _ _ hzero
        exact absurd ⟨hx, hz⟩ (hnodup i hi h)
      · exact h
      · exfalso
        have h2 := hstrict k hk h
        rw [hdk, hzero] at h2
        exact lt_irrefl 0 h2

    subst hik
    rw [heq]
  · intro sqrtQ hmono tm x z hne
    exact distanceAlongTrack_eq sqrtQ hmono x z tm hne

/-- Witness centerline for C7: three points with distinct coordinates. -/
def c7wCl : List TrackPoint :=
  [{ x := 0, z := 0, d := 0, speed := none, timestamp := none },
   { x := 10, z := 0, d := 2/5, speed := none, timestamp := none },
   { x := 10, z := 10, d := 4/5, speed := none, timestamp := none }]

/-- Witness map for C7. -/
def c7wTm : TrackMap :=
  { trackId := "w"
    lengthMeters := 100
    centerline := c7wCl
    sectorFractions := []
    capturedAt := "" }

/-- C7 (witness): the amended query characterisation instantiated on a
concrete three-point centerline, the identity standing in for the (trivially
order-reflecting) square root. -/
theorem c7_nearest_point_witness :
    (∃ (i : ℕ) (hi : i < c7wCl.length),
      getDistanceAlongTrack c7wCl 9 1 = (c7wCl.get ⟨i, hi⟩).d ∧
      (∀ (j : ℕ) (hj : j < c7wCl.length),
        distSqTo 9 1 (c7wCl.get ⟨i, hi⟩) ≤ distSqTo 9 1 (c7wCl.get ⟨j, hj⟩)) ∧
      (∀ (j : ℕ) (hj : j < c7wCl.length), j < i →
        distSqTo 9 1 (c7wCl.get ⟨i, hi⟩) < distSqTo 9 1 (c7wCl.get ⟨j, hj⟩))) ∧
    getDistanceAlongTrack c7wCl (c7wCl.get ⟨1, by decide⟩).x
      (c7wCl.get ⟨1, by decide⟩).z = (c7wCl.get ⟨1, by decide⟩).d ∧
    distanceAlongTrack (fun q => q) 9 1 c7wTm =
      getDistanceAlongTrack c7wTm.centerline 9 1 * c7wTm.lengthMeters :=
  ⟨c7_nearest_point.1 c7wCl 9 1 (by decide),
   c7_nearest_point.2.1 c7wCl 1 (by decide)
     (by
        intro j hj hj1
        have hj0 : j = 0 := by omega
        subst hj0
        norm_num [c7wCl]),
   c7_nearest_point.2.2 (fun q => q) (fun a b _ _ => Iff.rfl) c7wTm 9 1 (by decide)⟩

/-- Stated from the claim's words, for comparison with the source's
downsampling loop: after the unconditionally retained first point, keep
exactly those points whose cumulative arc length has advanced at least 0.5 m
since the last retained point (`lastKept`), each normalised by the total
length. -/
def specRetainTail (trackLength lastKept : ℚ) :
    List (TrackPoint × ℚ) → List TrackPoint
  | [] => []
  | pq :: rest =>
    if pq.2 - lastKept ≥ 0.5 then
      normPoint trackLength pq :: specRetainTail trackLength pq.2 rest
    else specRetainTail trackLength lastKept rest

/-- Stated from the claim's words: the first point is always retained, then
the greedy 0.5 m rule applies. -/
def specDownsample (trackLength : ℚ) : List (TrackPoint × ℚ) → List TrackPoint
  | [] => []
  | pq :: rest => normPoint trackLength pq :: specRetainTail trackLength pq.2 rest

/-- The source's loop with a finite `lastCumulativeD` is the greedy tail. -/
lemma downsampleGo_some (L : ℚ) (l : List (TrackPoint × ℚ)) :
    ∀ c : ℚ, downsampleGo L l (some c) = specRetainTail L c l := by
  induction l with
  | nil => intro c; rfl
  | cons pq rest ih =>
    intro c
    simp only [downsampleGo, specRetainTail, decide_eq_true_eq]
    split_ifs with h1 <;> rw [ih]

/-- The source's downsampling loop (started at `-Infinity`) is exactly the
claim's greedy retention rule. -/
lemma downsample_eq_spec (L : ℚ) (l : List (TrackPoint × ℚ)) :
    downsampleGo L l none = specDownsample L l := by
  cases l with
  | nil => rfl
  | cons pq rest =>
    simp only [downsampleGo, specDownsample, if_true]
    rw [downsampleGo_some]

/-- Every point the greedy rule retains is a captured point normalised by the
total length (its fraction is its cumulative arc length over the total). -/
lemma specRetainTail_mem (L : ℚ) (l : List (TrackPoint × ℚ)) :
    ∀ (c : ℚ) (q : TrackPoint), q ∈ specRetainTail L c l →
      ∃ pq ∈ l, q = normPoint L pq := by
  induction l with
  | nil => intro c q hq; simp [specRetainTail] at hq
  | cons pq rest ih =>
    intro c q hq
    simp only [specRetainTail] at hq
    split_ifs at hq with h1
    · rcases List.mem_cons.mp hq with h | h
      · exact ⟨pq, List.mem_cons_self pq rest, h⟩
      · obtain ⟨pq2, hmem, heq⟩ := ih pq.2 q h
        exact ⟨pq2, List.mem_cons_of_mem pq hmem, heq⟩
    · obtain ⟨pq2, hmem, heq⟩ := ih c q hq
      exact ⟨pq2, List.mem_cons_of_mem pq hmem, heq⟩

/-- Membership form of the retention rule for the whole downsampled list. -/
lemma specDownsample_mem (L : ℚ) (l : List (TrackPoint × ℚ)) (q : TrackPoint)
    (hq : q ∈ specDownsample L l) : ∃ pq ∈ l, q = normPoint L pq := by
  cases l with
  | nil => simp [specDownsample] at hq
  | cons pq rest =>
    simp only [specDownsample] at hq
    rcases List.mem_cons.mp hq with h | h
    · exact ⟨pq, List.mem_cons_self pq rest, h⟩
    · obtain ⟨pq2, hmem, heq⟩ := specRetainTail_mem L rest pq.2 q h
      exact ⟨pq2, List.mem_cons_of_mem pq hmem, heq⟩

/-- C8: the downsampled centerline retains a point exactly per the greedy
rule — the first point always, then whenever cumulative arc length has
advanced at least 0.5 m since the last retained point — every retained point
being a captured point with fraction cumulative-arc-length / total; and
`processTrackCapture` returns that downsampled list when it has more than 10
points, otherwise every computed point. -/
theorem c8_downsample :
    (∀ (L : ℚ) (l : List (TrackPoint × ℚ)),
      downsampleGo L l none = specDownsample L l) ∧
    (∀ (L : ℚ) (l : List (TrackPoint × ℚ)) (q : TrackPoint),
      q ∈ specDownsample L l → ∃ pq ∈ l, q = normPoint L pq) ∧
    (∀ (sqrtQ : ℚ → ℚ) (nowIso : String) (sess : CaptureSession),
      sess.points.length ≠ 0 →
      (sess.points.filter (fun p => decide ((p.speed.getD 0) > 5))).length ≠ 0 →
      ∃ tm : TrackMap,
        processTrackCapture sqrtQ nowIso (some sess) = some tm ∧
        tm.lengthMeters =
          totalLength (pointsWithDistance sqrtQ
            (sess.points.filter (fun p => decide ((p.speed.getD 0) > 5)))) ∧
        tm.centerline =
          (if (specDownsample
                (totalLength (pointsWithDistance sqrtQ
                  (sess.points.filter (fun p => decide ((p.speed.getD 0) > 5)))))
                (pointsWithDistance sqrtQ
                  (sess.points.filter (fun p => decide ((p.speed.getD 0) > 5))))).length
              > 10 then
            specDownsample
              (totalLength (pointsWithDistance sqrtQ
                (sess.points.filter (fun p => decide ((p.speed.getD 0) > 5)))))
              (pointsWithDistance sqrtQ
                (sess.points.filter (fun p => decide ((p.speed.getD 0) > 5))))
          else
            (pointsWithDistance sqrtQ
              (sess.points.filter (fun p => decide ((p.speed.getD 0) > 5)))).map
              (normPoint (totalLength (pointsWithDistance sqrtQ
                (sess.points.filter (fun p => decide ((p.speed.getD 0) > 5)))))))) := by
  refine ⟨downsample_eq_spec, specDownsample_mem, ?_⟩
  intro sqrtQ nowIso sess h1 h2
  simp only [processTrackCapture]
  rw [if_neg h1, if_neg h2]
  exact ⟨_, rfl, rfl, by rw [downsample_eq_spec]⟩

/-- Witness session for C8: three points a meter apart at 10 km/h. -/
def c8wSession : CaptureSession :=
  { trackId := "w"
    isActive := false
    points :=
      [{ x := 0, z := 0, d := 0, speed := some 10, timestamp := none },
       { x := 1, z := 0, d := 0, speed := some 10, timestamp := none },
       { x := 2, z := 0, d := 0, speed := some 10, timestamp := none }]
    startTime := 0 }

/-- C8 (witness): the processing conclusion instantiated on a concrete
session (identity standing in for the square root). -/
theorem c8_downsample_witness :
    ∃ tm : TrackMap,
      processTrackCapture (fun q => q) "w" (some c8wSession) = some tm ∧
      tm.lengthMeters =
        totalLength (pointsWithDistance (fun q => q)
          (c8wSession.points.filter (fun p => decide ((p.speed.getD 0) > 5)))) ∧
      tm.centerline =
        (if (specDownsample
              (totalLength (pointsWithDistance (fun q => q)
                (c8wSession.points.filter (fun p => decide ((p.speed.getD 0) > 5)))))
              (pointsWithDistance (fun q => q)
                (c8wSession.points.filter (fun p => decide ((p.speed.getD 0) > 5))))).length
            > 10 then
          specDownsample
            (totalLength (pointsWithDistance (fun q => q)
              (c8wSession.points.filter (fun p => decide ((p.speed.getD 0) > 5)))))
            (pointsWithDistance (fun q => q)
              (c8wSession.points.filter (fun p => decide ((p.speed.getD 0) > 5))))
        else
          (pointsWithDistance (fun q => q)
            (c8wSession.points.filter (fun p => decide ((p.speed.getD 0) > 5)))).map
            (normPoint (totalLength (pointsWithDistance (fun q => q)
              (c8wSession.points.filter (fun p => decide ((p.speed.getD 0) > 5))))))) :=
  c8_downsample.2.2 (fun q => q) "w" c8wSession (by decide) (by decide)

end GTDash
